import Mathlib

/-!
# Shallow embedding of the blog test-data generator

This file models `src/infra/postgres/generate_test_data.py` (the
`BlogDataGenerator` class plus its `main` driver) and the reference-extraction
logic of `src/infra/postgres/verify_relationships.py`.

Modelling conventions:

* Randomness is made explicit.  Every call of the Python generators consumes a
  fixed collection of random values per produced record (the `random` module
  draws, the Faker strings, the `uuid4()` results and the `datetime.now()`
  clock readings); the embedding receives them as a stream of per-record draw
  structures, indexed by the iteration counter of the Python `for` loop.
* `random.choice(xs)` and `random.randint(a, b)` receive a raw entropy value
  `e : Nat`; `choice` returns element `e % len(xs)` (and fails on an empty
  list, as the Python call raises `IndexError`), `randint a b` returns
  `a + e % (b - a + 1)`, which has exactly the support `[a, b]`.
* `random.random() < ratio` draws are modelled over `ℚ` (the float literals of
  the source become the corresponding rationals).
* Timestamps are integers (the code only ever shifts a wall-clock reading by a
  whole number of days); `strftime('%Y-%m-%d %H:%M:%S')` is modelled by an
  injective rendering `fmtTs` that contains no quote, comma or newline, the
  same holds for the real format.  The two `datetime.now()` readings inside
  one loop iteration are modelled as a single clock value for that iteration.
-/

/-- The single-quote character (code point 39). -/
def sqChar : Char := Char.ofNat 39

/-- The single-quote string. -/
def sqc : String := String.singleton sqChar

/-- Models the Python idiom `s.replace("'", "''")` (SQL single-quote
doubling) used on titles, contents and commenter names. -/
def escapeSq (s : String) : String :=
  String.mk (s.data.flatMap (fun c => if c = sqChar then [sqChar, sqChar] else [c]))

/-- Models `str.lower()` (character-wise lowering; the generated strings are
ASCII). -/
def pyLower (s : String) : String :=
  String.mk (s.data.map Char.toLower)

/-- Models `s.replace(' ', '_')`: character-wise replacement of spaces by
underscores. -/
def replaceSpaceByUnderscore (s : String) : String :=
  String.mk (s.data.map (fun c => if c = ' ' then '_' else c))

/-- The transformation `fake.user_name().lower().replace(' ', '_')` applied to
each candidate username in `generate_authors`. -/
def normalizeUsername (s : String) : String :=
  replaceSpaceByUnderscore (pyLower s)

/-- Models `random.choice(xs)` given a raw entropy value `e`: element
`e % len(xs)`; `none` models the `IndexError` raised on an empty list. -/
def pyChoice (l : List α) (e : Nat) : Option α :=
  l.get? (e % l.length)

/-- Models `random.randint(a, b)` given a raw entropy value `e`: the result
`a + e % (b - a + 1)` ranges exactly over `[a, b]`. -/
def pyRandint (a b e : Nat) : Nat :=
  a + e % (b - a + 1)

/-- Models `strftime('%Y-%m-%d %H:%M:%S')` on an integer timestamp: an
injective rendering free of quotes, commas and newlines. -/
def fmtTs (t : Int) : String :=
  toString t

/-- Wraps a string in single quotes, as the `f"'{x}'"` interpolations of
`generate_sql` do. -/
def sqWrap (s : String) : String :=
  sqc ++ s ++ sqc

/-- Models `str(is_published).upper()`: `TRUE` / `FALSE`. -/
def boolStr (b : Bool) : String :=
  if b then "TRUE" else "FALSE"

/-! ## Authors (`BlogDataGenerator.generate_authors`) -/

/-- An author record `(uuid, username, email, created_at)`; `createdAt` keeps
the timestamp value that the source formats with `strftime`. -/
structure Author where
  id : String
  username : String
  email : String
  createdAt : Int
deriving DecidableEq

/-- The random values consumed by one iteration of the `generate_authors`
loop: the stream of `fake.user_name()` candidates tried by the retry loop, the
`uuid4().hex[:8]` used by the fallback username, the `uuid4()` author id, the
`fake.unique.email()` result and the `fake.date_time_between` timestamp. -/
structure AuthorDraw where
  names : Nat → String
  fallbackHex : String
  uuid : String
  email : String
  createdAt : Int

/-- The username retry loop of `generate_authors`: candidate `k` is
`normalizeUsername (names k)`; a candidate already in `issued` is rejected;
after the attempt counter exceeds 100 (i.e. after 101 rejected candidates,
tracked here by the fuel argument) the loop breaks with the fallback username
`"user_" ++ fallbackHex`, without re-checking it against `issued`. -/
def findUsernameAux (issued : List String) (names : Nat → String) (fb : String) :
    Nat → Nat → String
  | 0, _ => "user_" ++ fb
  | fuel + 1, k =>
    let c := normalizeUsername (names k)
    if c ∈ issued then findUsernameAux issued names fb fuel (k + 1) else c

/-- The username chosen for one author, starting the retry loop with attempt
budget 101 (the Python loop falls back once `attempts > 100`). -/
def pickUsername (issued : List String) (names : Nat → String) (fb : String) : String :=
  findUsernameAux issued names fb 101 0

/-- The `generate_authors` loop: `n` iterations remaining, `i` the iteration
index (selecting the draws), `issued` the set of usernames issued so far. -/
def genAuthorsAux (draws : Nat → AuthorDraw) : Nat → Nat → List String → List Author
  | 0, _, _ => []
  | n + 1, i, issued =>
    let d := draws i
    let u := pickUsername issued d.names d.fallbackHex
    { id := d.uuid, username := u, email := d.email, createdAt := d.createdAt } ::
      genAuthorsAux draws n (i + 1) (u :: issued)

/-- `BlogDataGenerator.generate_authors`. -/
def generate_authors (count : Nat) (draws : Nat → AuthorDraw) : List Author :=
  genAuthorsAux draws count 0 []

/-! ## Articles (`BlogDataGenerator.generate_articles`) -/

/-- An article record.  The source keeps the tuple
`(uuid, title, content, publish_date, is_published, author_id, created_at)`;
here `publishDate`/`createdAt` keep the timestamp values (a `none`
`publishDate` is the draft case that the source renders as `NULL`), and
`title`/`content` are stored after the source's single-quote escaping. -/
structure Article where
  id : String
  title : String
  content : String
  publishDate : Option Int
  isPublished : Bool
  authorId : String
  createdAt : Int
deriving DecidableEq

/-- The random values consumed by one iteration of the `generate_articles`
loop: the `uuid4()` id, the entropy of the four `random.choice` /
`random.randint` calls, the `fake.paragraphs` stream, the `random.random()`
publication draw, the entropy of the two date `randint` calls and the
`datetime.now()` reading of the iteration. -/
structure ArticleDraw where
  uuid : String
  authorE : Nat
  topicE : Nat
  patternE : Nat
  paraE : Nat
  paragraphs : Nat → String
  publishQ : ℚ
  daysE : Nat
  pubDaysE : Nat
  now : Int

/-- The fixed topic catalog of `generate_articles`. -/
def topics : List String :=
  ["Technology", "Programming", "Web Development", "Data Science",
   "Machine Learning", "DevOps", "Cloud Computing", "Security",
   "Mobile Development", "Database Design", "API Development",
   "Frontend", "Backend", "Full Stack", "Software Architecture",
   "Testing", "Agile", "Open Source", "Career", "Tutorial"]

/-- The ten `title_patterns` f-strings instantiated at a topic. -/
def titlePatterns (topic : String) : List String :=
  ["Getting Started with " ++ topic,
   "Advanced " ++ topic ++ " Techniques",
   topic ++ " Best Practices",
   "Introduction to " ++ topic,
   topic ++ " Tutorial: A Complete Guide",
   "Understanding " ++ topic,
   topic ++ " Tips and Tricks",
   "Mastering " ++ topic,
   topic ++ " Fundamentals",
   "Exploring " ++ topic]

/-- One iteration of the `generate_articles` loop.  Mirrors the source order:
author choice, topic choice, title-pattern choice, paragraph count
`randint(3, 8)`, content join + escaping, the `random() < published_ratio`
draw, `days_ago = randint(0, 365)`, `created_at = now - days_ago`, and for
published articles `publish_date = now - randint(0, days_ago)`. -/
def mkArticle (authorIds : List String) (ratio : ℚ) (d : ArticleDraw) : Option Article :=
  match pyChoice authorIds d.authorE with
  | none => none
  | some authorId =>
    match pyChoice topics d.topicE with
    | none => none
    | some topic =>
      match pyChoice (titlePatterns topic) d.patternE with
      | none => none
      | some title =>
        let numParagraphs := pyRandint 3 8 d.paraE
        let content := escapeSq
          (String.intercalate "\n\n" ((List.range numParagraphs).map d.paragraphs))
        let isPublished := d.publishQ < ratio
        let daysAgo := pyRandint 0 365 d.daysE
        let createdAt := d.now - (daysAgo : Int)
        let publishDate : Option Int :=
          if isPublished then some (d.now - (pyRandint 0 daysAgo d.pubDaysE : Int)) else none
        some { id := d.uuid, title := escapeSq title, content := content,
               publishDate := publishDate, isPublished := isPublished,
               authorId := authorId, createdAt := createdAt }

/-- The `generate_articles` loop: `n` iterations remaining, `i` the iteration
index selecting the draws. -/
def genArticlesAux (authorIds : List String) (ratio : ℚ) (draws : Nat → ArticleDraw) :
    Nat → Nat → Option (List Article)
  | 0, _ => some []
  | n + 1, i =>
    match mkArticle authorIds ratio (draws i) with
    | none => none
    | some a =>
      match genArticlesAux authorIds ratio draws n (i + 1) with
      | none => none
      | some rest => some (a :: rest)

/-- `BlogDataGenerator.generate_articles`. -/
def generate_articles (count : Nat) (authorIds : List String) (ratio : ℚ)
    (draws : Nat → ArticleDraw) : Option (List Article) :=
  genArticlesAux authorIds ratio draws count 0

/-! ## Comments (`BlogDataGenerator.generate_comments`) -/

/-- A comment record.  `authorName` and `content` are stored after the
source's single-quote escaping; `authorEmail` is stored exactly as produced by
`fake.email()` (the source applies no escaping to it). -/
structure Comment where
  id : String
  articleId : String
  authorName : String
  authorEmail : String
  content : String
  commentDate : Int
  createdAt : Int
deriving DecidableEq

/-- The random values consumed by one iteration of the `generate_comments`
loop: the `uuid4()` id, the article-choice entropy, `fake.name()`,
`fake.email()`, the `random() < 0.3` template draw, the template-choice
entropy, the `randint(5, 20)` word-count entropy, the `fake.sentence` result
as a function of its word count, the `randint(0, 180)` date entropy and the
`datetime.now()` reading of the iteration. -/
structure CommentDraw where
  uuid : String
  articleE : Nat
  name : String
  email : String
  tmplQ : ℚ
  tmplE : Nat
  wordsE : Nat
  sentence : Nat → String
  daysE : Nat
  now : Int

/-- The fixed `comment_templates` catalog of `generate_comments`. -/
def commentTemplates : List String :=
  ["Great article! Very helpful.",
   "Thanks for sharing this.",
   "I found this really useful.",
   "Excellent explanation!",
   "This helped me understand the concept better.",
   "Nice write-up!",
   "I have a question about...",
   "Could you elaborate on...?",
   "I disagree with...",
   "This is exactly what I was looking for!",
   "Well written and informative.",
   "I" ++ sqc ++ "ll definitely try this approach.",
   "Thanks for the detailed explanation.",
   "This cleared up my confusion.",
   "Great examples in this article."]

/-- One iteration of the `generate_comments` loop.  Mirrors the source order:
article choice, commenter name and email, the `random() < 0.3` draw selecting
a template versus a `fake.sentence(nb_words=randint(5, 20))`, single-quote
escaping of the content, and `comment_date = created_at = now - randint(0,
180)`.  `author_name` is escaped; `author_email` is kept verbatim. -/
def mkComment (articleIds : List String) (d : CommentDraw) : Option Comment :=
  match pyChoice articleIds d.articleE with
  | none => none
  | some articleId =>
    match (if d.tmplQ < mkRat 3 10 then pyChoice commentTemplates d.tmplE
           else some (d.sentence (pyRandint 5 20 d.wordsE))) with
    | none => none
    | some rawContent =>
      let t := d.now - (pyRandint 0 180 d.daysE : Int)
      some { id := d.uuid, articleId := articleId,
             authorName := escapeSq d.name, authorEmail := d.email,
             content := escapeSq rawContent, commentDate := t, createdAt := t }

/-- The `generate_comments` loop: `n` iterations remaining, `i` the iteration
index selecting the draws. -/
def genCommentsAux (articleIds : List String) (draws : Nat → CommentDraw) :
    Nat → Nat → Option (List Comment)
  | 0, _ => some []
  | n + 1, i =>
    match mkComment articleIds (draws i) with
    | none => none
    | some c =>
      match genCommentsAux articleIds draws n (i + 1) with
      | none => none
      | some rest => some (c :: rest)

/-- `BlogDataGenerator.generate_comments`. -/
def generate_comments (count : Nat) (articleIds : List String)
    (draws : Nat → CommentDraw) : Option (List Comment) :=
  genCommentsAux articleIds draws count 0

/-! ## SQL serialization (`BlogDataGenerator.generate_sql`) -/

/-- The author tuple rendering
`f"('{uuid_str}', '{username}', '{email}', '{created_at}')"`. -/
def authorValue (a : Author) : String :=
  "(" ++ sqWrap a.id ++ ", " ++ sqWrap a.username ++ ", " ++ sqWrap a.email ++
    ", " ++ sqWrap (fmtTs a.createdAt) ++ ")"

/-- The `publish_date` field string of an article: the quoted formatted
timestamp for published articles, the unquoted `NULL` keyword for drafts. -/
def publishDateStr (a : Article) : String :=
  match a.publishDate with
  | some t => sqWrap (fmtTs t)
  | none => "NULL"

/-- The article tuple rendering
`f"('{uuid}', '{title}', '{content}', {publish_date}, {is_published},
'{author_id}', {created_at}, {created_at})"` (the date fields carry their own
quoting; `updated_at` repeats `created_at`). -/
def articleValue (a : Article) : String :=
  "(" ++ sqWrap a.id ++ ", " ++ sqWrap a.title ++ ", " ++ sqWrap a.content ++
    ", " ++ publishDateStr a ++ ", " ++ boolStr a.isPublished ++
    ", " ++ sqWrap a.authorId ++ ", " ++ sqWrap (fmtTs a.createdAt) ++
    ", " ++ sqWrap (fmtTs a.createdAt) ++ ")"

/-- The comment tuple rendering
`f"('{uuid_str}', '{article_id}', '{author_name}', '{author_email}',
'{content}', {comment_date}, {created_at})"`. -/
def commentValue (c : Comment) : String :=
  "(" ++ sqWrap c.id ++ ", " ++ sqWrap c.articleId ++ ", " ++ sqWrap c.authorName ++
    ", " ++ sqWrap c.authorEmail ++ ", " ++ sqWrap c.content ++
    ", " ++ sqWrap (fmtTs c.commentDate) ++ ", " ++ sqWrap (fmtTs c.createdAt) ++ ")"

/-- The `sql_lines` list built by `generate_sql`; `now` is the
`datetime.now()` reading of the header line.  Each multi-row `VALUES` body is
one element joined with `",\n"`, exactly as the source appends
`",\n".join(values) + ";"`. -/
def sqlLines (now : Int) (authors : List Author) (articles : List Article)
    (comments : List Comment) : List String :=
  ["-- Generated SQL INSERT statements",
   "-- Generated at: " ++ fmtTs now,
   "-- Authors: " ++ toString authors.length ++ ", Articles: " ++
     toString articles.length ++ ", Comments: " ++ toString comments.length,
   "",
   "-- Insert Authors",
   "INSERT INTO Authors (id, username, email, created_at) VALUES",
   String.intercalate ",\n" (authors.map authorValue) ++ ";",
   "",
   "-- Insert Articles",
   "INSERT INTO Articles (id, title, content, publish_date, is_published, author_id, created_at, updated_at) VALUES",
   String.intercalate ",\n" (articles.map articleValue) ++ ";",
   "",
   "-- Insert Comments",
   "INSERT INTO Comments (id, article_id, author_name, author_email, content, comment_date, created_at) VALUES",
   String.intercalate ",\n" (comments.map commentValue) ++ ";",
   "",
   "-- Summary",
   "SELECT",
   "    " ++ sqWrap "Data Generation Complete" ++ " AS message,",
   "    " ++ toString authors.length ++ " AS total_authors,",
   "    " ++ toString articles.length ++ " AS total_articles,",
   "    " ++ toString comments.length ++ " AS total_comments;"]

/-- `BlogDataGenerator.generate_sql`: the joined text `"\n".join(sql_lines)`. -/
def generate_sql (now : Int) (authors : List Author) (articles : List Article)
    (comments : List Comment) : String :=
  String.intercalate "\n" (sqlLines now authors articles comments)

/-! ## The full pipeline and the `main` driver -/

/-- The generation part of `main`: authors, then articles over the author-id
pool, then comments over the article-id pool, then serialization.  `none`
models the `IndexError` that `random.choice` raises on an empty pool. -/
def runPipeline (aDraws : Nat → AuthorDraw) (arDraws : Nat → ArticleDraw)
    (cDraws : Nat → CommentDraw) (sqlNow : Int)
    (nAuthors nArticles nComments : Nat) (ratio : ℚ) : Option String :=
  let authors := generate_authors nAuthors aDraws
  match generate_articles nArticles (authors.map Author.id) ratio arDraws with
  | none => none
  | some articles =>
    match generate_comments nComments (articles.map Article.id) cDraws with
    | none => none
    | some comments => some (generate_sql sqlNow authors articles comments)

/-- The `main` driver after argument parsing: the four validation checks, in
source order, each rejecting with its `--`-flag error message before any
generation runs; on valid input the pipeline runs (an empty-pool
`random.choice` failure surfaces as the uncaught `IndexError`). -/
def mainModel (nAuthors nArticles nComments : Int) (ratio : ℚ)
    (aDraws : Nat → AuthorDraw) (arDraws : Nat → ArticleDraw)
    (cDraws : Nat → CommentDraw) (sqlNow : Int) : Except String String :=
  if nAuthors < 1 then Except.error "Error: --authors must be at least 1"
  else if nArticles < 1 then Except.error "Error: --articles must be at least 1"
  else if nComments < 1 then Except.error "Error: --comments must be at least 1"
  else if ¬ (0 ≤ ratio ∧ ratio ≤ 1) then
    Except.error "Error: --published-ratio must be between 0.0 and 1.0"
  else
    match runPipeline aDraws arDraws cDraws sqlNow nAuthors.toNat nArticles.toNat
        nComments.toNat ratio with
    | some sql => Except.ok sql
    | none => Except.error "IndexError: Cannot choose from an empty sequence"

/-! ## The verifier (`verify_relationships.extract_uuids_from_sql`)

The Python verifier scrapes the SQL text with regular expressions.  The
embedding implements the behaviour of each regex directly on character lists:
`re.search(marker + ".*?VALUES\\s+(.*?);", content, re.DOTALL)` becomes "the
text between the first `VALUES` after the first occurrence of the marker
(followed by at least one whitespace character, all consumed) and the next
semicolon", and the UUID patterns become scans for a quote, exactly 36
characters of `[a-f0-9-]`, and a closing quote. -/

/-- `true` when `pat` is an initial segment of the second list. -/
def startsWithCL : List Char → List Char → Bool
  | [], _ => true
  | _ :: _, [] => false
  | p :: ps, c :: cs => p = c && startsWithCL ps cs

/-- The remainder of the text after the first occurrence of `pat`; `none` when
`pat` does not occur (the regex fails to match). -/
def afterFirst (pat : List Char) : List Char → Option (List Char)
  | [] => if pat.isEmpty then some [] else none
  | c :: cs =>
    if startsWithCL pat (c :: cs) then some ((c :: cs).drop pat.length)
    else afterFirst pat cs

/-- The whitespace class of the verifier's `\s` and of Python `str.strip`. -/
def isWsChar (c : Char) : Bool :=
  c = ' ' || c = '\n' || c = '\t' || c = '\r'

/-- Models `\s+` at the current position: requires one whitespace character
and consumes the whole run; `none` when the next character is not
whitespace. -/
def skipWsPlus : List Char → Option (List Char)
  | [] => none
  | c :: cs => if isWsChar c then some (cs.dropWhile isWsChar) else none

/-- The non-greedy capture `(.*?);`: the text up to the next semicolon, or
`none` when no semicolon follows (the regex fails to match). -/
def takeUntilChar (stop : Char) : List Char → Option (List Char)
  | [] => none
  | c :: cs => if c = stop then some [] else (takeUntilChar stop cs).map (c :: ·)

/-- The `VALUES` body of the first `INSERT INTO <marker> ... VALUES ...;`
statement of `content`, as captured by the verifier's block regexes. -/
def extractBlock (marker : String) (content : String) : Option String :=
  match afterFirst marker.data content.data with
  | none => none
  | some r1 =>
    match afterFirst "VALUES".data r1 with
    | none => none
    | some r2 =>
      match skipWsPlus r2 with
      | none => none
      | some r3 =>
        match takeUntilChar (Char.ofNat 59) r3 with
        | none => none
        | some b => some (String.mk b)

/-- The verifier's UUID character class `[a-f0-9-]`. -/
def isUuidChar (c : Char) : Bool :=
  ('a' ≤ c && c ≤ 'f') || ('0' ≤ c && c ≤ '9') || c = '-'

/-- A match of `'([a-f0-9-]{36})'` at the current position: the captured UUID
and the remainder after the closing quote. -/
def tryQuotedUuid : List Char → Option (String × List Char)
  | c :: rest =>
    if c = sqChar then
      let u := rest.take 36
      let r := rest.drop 36
      if u.length = 36 && u.all isUuidChar then
        match r with
        | c2 :: r2 => if c2 = sqChar then some (String.mk u, r2) else none
        | [] => none
      else none
    else none
  | [] => none

/-- A match of `\('([a-f0-9-]{36})'` at the current position. -/
def tryParenQuotedUuid : List Char → Option (String × List Char)
  | c :: rest => if c = '(' then tryQuotedUuid rest else none
  | [] => none

/-- `re.finditer` of `\('([a-f0-9-]{36})'`: all non-overlapping matches, the
scan resuming after each match. -/
def scanParenQuotedUuids : Nat → List Char → List String
  | 0, _ => []
  | _ + 1, [] => []
  | fuel + 1, c :: cs =>
    match tryParenQuotedUuid (c :: cs) with
    | some (u, rest) => u :: scanParenQuotedUuids fuel rest
    | none => scanParenQuotedUuids fuel cs

/-- `re.search` of `'([a-f0-9-]{36})'`: the first match, if any. -/
def searchQuotedUuid : Nat → List Char → Option String
  | 0, _ => none
  | _ + 1, [] => none
  | fuel + 1, c :: cs =>
    match tryQuotedUuid (c :: cs) with
    | some (u, _) => some u
    | none => searchQuotedUuid fuel cs

/-- `re.search` of `\('([a-f0-9-]{36})'`: the first match, if any. -/
def searchParenQuotedUuid : Nat → List Char → Option String
  | 0, _ => none
  | _ + 1, [] => none
  | fuel + 1, c :: cs =>
    match tryParenQuotedUuid (c :: cs) with
    | some (u, _) => some u
    | none => searchParenQuotedUuid fuel cs

/-- Python `str.split(sep)` for a one-character separator (empty pieces are
kept, as in Python). -/
def splitOnCharCL (sep : Char) : List Char → List (List Char)
  | [] => [[]]
  | c :: cs =>
    if c = sep then [] :: splitOnCharCL sep cs
    else
      match splitOnCharCL sep cs with
      | [] => [[c]]
      | l :: ls => (c :: l) :: ls

/-- The verifier's `line.strip().startswith('(')` test. -/
def lineStartsParen (l : List Char) : Bool :=
  match l.dropWhile isWsChar with
  | c :: _ => c = '('
  | [] => false

/-- Processing of one line of the Articles block: record the first
parenthesised UUID as the article id, then split the line on commas and, when
at least six fields result, search the sixth (`parts[5]`) for a quoted UUID to
record as the article's author reference. -/
def articleScanLine (acc : List String × List (String × String)) (line : List Char) :
    List String × List (String × String) :=
  if lineStartsParen line then
    match searchParenQuotedUuid line.length line with
    | some aid =>
      let ids := acc.1 ++ [aid]
      let parts := splitOnCharCL ',' line
      if parts.length ≥ 6 then
        match parts.get? 5 with
        | some p5 =>
          match searchQuotedUuid p5.length p5 with
          | some ref => (ids, acc.2 ++ [(aid, ref)])
          | none => (ids, acc.2)
        | none => (ids, acc.2)
      else (ids, acc.2)
    | none => acc
  else acc

/-- Processing of one line of the Comments block: record the first
parenthesised UUID as the comment id and search `parts[1]` of the comma split
for the referenced article UUID. -/
def commentScanLine (acc : List (String × String)) (line : List Char) :
    List (String × String) :=
  if lineStartsParen line then
    match searchParenQuotedUuid line.length line with
    | some cid =>
      let parts := splitOnCharCL ',' line
      if parts.length ≥ 2 then
        match parts.get? 1 with
        | some p1 =>
          match searchQuotedUuid p1.length p1 with
          | some ref => acc ++ [(cid, ref)]
          | none => acc
        | none => acc
      else acc
    | none => acc
  else acc

/-- The outcome of `extract_uuids_from_sql`: the reconstructed id sets, the
extracted references, the invalid references, and the returned boolean. -/
structure VerifyResult where
  authorIds : List String
  articleIds : List String
  articleAuthorRefs : List (String × String)
  invalidArticleRefs : List (String × String)
  commentArticleRefs : List (String × String)
  invalidCommentRefs : List (String × String)
  success : Bool
deriving DecidableEq

/-- `verify_relationships.extract_uuids_from_sql` on the SQL text: author ids
from the Authors block, article ids and author references from the per-line
scan of the Articles block, early `False` return on any invalid author
reference (in which case no comment reference is extracted), otherwise the
comment references and the final verdict. -/
def extract_uuids_from_sql (content : String) : VerifyResult :=
  let authorBlock := ((extractBlock "INSERT INTO Authors" content).getD "").data
  let authorIds := scanParenQuotedUuids authorBlock.length authorBlock
  let articleBlock := ((extractBlock "INSERT INTO Articles" content).getD "").data
  let articleScanned := (splitOnCharCL '\n' articleBlock).foldl articleScanLine ([], [])
  let articleIds := articleScanned.1
  let articleRefs := articleScanned.2
  let invalidA := articleRefs.filter (fun p => !(authorIds.contains p.2))
  if invalidA.isEmpty then
    let commentBlock := ((extractBlock "INSERT INTO Comments" content).getD "").data
    let commentRefs := (splitOnCharCL '\n' commentBlock).foldl commentScanLine []
    let invalidC := commentRefs.filter (fun p => !(articleIds.contains p.2))
    { authorIds := authorIds, articleIds := articleIds,
      articleAuthorRefs := articleRefs, invalidArticleRefs := invalidA,
      commentArticleRefs := commentRefs, invalidCommentRefs := invalidC,
      success := invalidC.isEmpty }
  else
    { authorIds := authorIds, articleIds := articleIds,
      articleAuthorRefs := articleRefs, invalidArticleRefs := invalidA,
      commentArticleRefs := [], invalidCommentRefs := [],
      success := false }

/-! ## Helper lemmas -/

theorem pyChoice_mem {l : List α} {e : Nat} {x : α} (h : pyChoice l e = some x) :
    x ∈ l :=
  List.get?_mem h

theorem pyChoice_isSome (l : List α) (h : l ≠ []) (e : Nat) :
    ∃ x, pyChoice l e = some x := by
  have hlt : e % l.length < l.length := Nat.mod_lt _ (List.length_pos.mpr h)
  exact ⟨l.get ⟨e % l.length, hlt⟩, List.get?_eq_get hlt⟩

theorem pyRandint_zero_le (g e : Nat) : pyRandint 0 g e ≤ g := by
  unfold pyRandint
  have h : e % (g - 0 + 1) < g - 0 + 1 := Nat.mod_lt _ (by omega)
  omega

theorem mkArticle_isSome {authorIds : List String} (h : authorIds ≠ [])
    (ratio : ℚ) (d : ArticleDraw) : ∃ a, mkArticle authorIds ratio d = some a := by
  obtain ⟨authorId, h1⟩ := pyChoice_isSome authorIds h d.authorE
  obtain ⟨topic, h2⟩ := pyChoice_isSome topics (by simp [topics]) d.topicE
  obtain ⟨title, h3⟩ :=
    pyChoice_isSome (titlePatterns topic) (by simp [titlePatterns]) d.patternE
  simp only [mkArticle, h1, h2, h3]
  exact ⟨_, rfl⟩

/-- The fields of a successfully generated article, as functions of its draw:
the referenced author is a pool member, drafts carry no publish date, and a
published article's publish date lies between `created_at` and the clock
reading of its iteration. -/
theorem mkArticle_spec {authorIds : List String} {ratio : ℚ} {d : ArticleDraw}
    {a : Article} (h : mkArticle authorIds ratio d = some a) :
    a.authorId ∈ authorIds ∧
    (a.isPublished = false → a.publishDate = none) ∧
    (a.isPublished = true → ∃ t, a.publishDate = some t ∧
      a.createdAt ≤ t ∧ t ≤ d.now) := by
  cases h1 : pyChoice authorIds d.authorE with
  | none => simp [mkArticle, h1] at h
  | some authorId =>
  cases h2 : pyChoice topics d.topicE with
  | none => simp [mkArticle, h1, h2] at h
  | some topic =>
  cases h3 : pyChoice (titlePatterns topic) d.patternE with
  | none => simp [mkArticle, h1, h2, h3] at h
  | some title =>
  simp only [mkArticle, h1, h2, h3, Option.some.injEq] at h
  subst h
  refine ⟨pyChoice_mem h1, ?_, ?_⟩
  · intro hfalse
    simp only [decide_eq_false_iff_not] at hfalse
    simp [hfalse]
  · intro htrue
    simp only [decide_eq_true_eq] at htrue
    have hle : pyRandint 0 (pyRandint 0 365 d.daysE) d.pubDaysE ≤
        pyRandint 0 365 d.daysE := pyRandint_zero_le _ _
    refine ⟨d.now - (pyRandint 0 (pyRandint 0 365 d.daysE) d.pubDaysE : Int),
      by simp [htrue], by simp only []; omega, by omega⟩

theorem genArticlesAux_length {authorIds : List String} {ratio : ℚ}
    {draws : Nat → ArticleDraw} :
    ∀ {n i l}, genArticlesAux authorIds ratio draws n i = some l → l.length = n := by
  intro n
  induction n with
  | zero =>
    intro i l h
    simp only [genArticlesAux, Option.some.injEq] at h
    simp [← h]
  | succ n ih =>
    intro i l h
    unfold genArticlesAux at h
    cases ha : mkArticle authorIds ratio (draws i) with
    | none => rw [ha] at h; exact absurd h (by simp)
    | some a =>
      rw [ha] at h
      cases hrest : genArticlesAux authorIds ratio draws n (i + 1) with
      | none => rw [hrest] at h; exact absurd h (by simp)
      | some rest =>
        rw [hrest] at h
        simp only [Option.some.injEq] at h
        subst h
        simp [ih hrest]

/-- A successfully generated article list is total and of the requested
length whenever the author pool is non-empty. -/
theorem genArticlesAux_ex {authorIds : List String} (h : authorIds ≠ [])
    (ratio : ℚ) (draws : Nat → ArticleDraw) :
    ∀ n i, ∃ l, genArticlesAux authorIds ratio draws n i = some l ∧ l.length = n := by
  intro n
  induction n with
  | zero => intro i; exact ⟨[], rfl, rfl⟩
  | succ n ih =>
    intro i
    obtain ⟨a, ha⟩ := mkArticle_isSome h ratio (draws i)
    obtain ⟨rest, hrest, hlen⟩ := ih (i + 1)
    refine ⟨a :: rest, ?_, by simp [hlen]⟩
    show genArticlesAux authorIds ratio draws (n + 1) i = _
    unfold genArticlesAux
    rw [ha, hrest]

/-- Element `k` of a successfully generated article list is the article built
from draw `i + k`. -/
theorem genArticlesAux_get {authorIds : List String} {ratio : ℚ}
    {draws : Nat → ArticleDraw} :
    ∀ {n i l}, genArticlesAux authorIds ratio draws n i = some l →
      ∀ k, k < n → l.get? k = mkArticle authorIds ratio (draws (i + k)) := by
  intro n
  induction n with
  | zero => intro i l _ k hk; omega
  | succ n ih =>
    intro i l h k hk
    unfold genArticlesAux at h
    cases ha : mkArticle authorIds ratio (draws i) with
    | none => rw [ha] at h; exact absurd h (by simp)
    | some a =>
      rw [ha] at h
      cases hrest : genArticlesAux authorIds ratio draws n (i + 1) with
      | none => rw [hrest] at h; exact absurd h (by simp)
      | some rest =>
        rw [hrest] at h
        simp only [Option.some.injEq] at h
        subst h
        cases k with
        | zero => simpa using ha.symm
        | succ k =>
          have hik : i + 1 + k = i + (k + 1) := by omega
          rw [List.get?_cons_succ, ih hrest k (by omega), hik]

/-- Every member of a successfully generated article list arises from some
draw. -/
theorem genArticlesAux_mem {authorIds : List String} {ratio : ℚ}
    {draws : Nat → ArticleDraw} {n i l}
    (h : genArticlesAux authorIds ratio draws n i = some l) {a : Article}
    (ha : a ∈ l) : ∃ j, mkArticle authorIds ratio (draws j) = some a := by
  obtain ⟨k, hk⟩ := List.mem_iff_get?.mp ha
  have hkl : k < l.length := (List.get?_eq_some.mp hk).1
  have hkn : k < n := by rw [genArticlesAux_length h] at hkl; exact hkl
  exact ⟨i + k, by rw [← genArticlesAux_get h k hkn, hk]⟩

theorem mkComment_isSome {articleIds : List String} (h : articleIds ≠ [])
    (d : CommentDraw) : ∃ c, mkComment articleIds d = some c := by
  obtain ⟨articleId, h1⟩ := pyChoice_isSome articleIds h d.articleE
  by_cases ht : d.tmplQ < mkRat 3 10
  · obtain ⟨tmpl, h2⟩ :=
      pyChoice_isSome commentTemplates (by simp [commentTemplates]) d.tmplE
    simp only [mkComment, h1, if_pos ht, h2]
    exact ⟨_, rfl⟩
  · simp only [mkComment, h1, if_neg ht]
    exact ⟨_, rfl⟩

/-- The fields of a successfully generated comment, as functions of its draw:
the referenced article is a pool member, the commenter name and the content
are single-quote escaped, and the email is embedded verbatim. -/
theorem mkComment_spec {articleIds : List String} {d : CommentDraw} {c : Comment}
    (h : mkComment articleIds d = some c) :
    c.articleId ∈ articleIds ∧ c.authorEmail = d.email ∧
    c.authorName = escapeSq d.name ∧ c.commentDate = c.createdAt := by
  cases h1 : pyChoice articleIds d.articleE with
  | none => simp [mkComment, h1] at h
  | some articleId =>
  cases h2 : (if d.tmplQ < mkRat 3 10 then pyChoice commentTemplates d.tmplE
      else some (d.sentence (pyRandint 5 20 d.wordsE))) with
  | none => simp [mkComment, h1, h2] at h
  | some rawContent =>
  simp only [mkComment, h1, h2, Option.some.injEq] at h
  subst h
  exact ⟨pyChoice_mem h1, rfl, rfl, rfl⟩

theorem genCommentsAux_length {articleIds : List String} {draws : Nat → CommentDraw} :
    ∀ {n i l}, genCommentsAux articleIds draws n i = some l → l.length = n := by
  intro n
  induction n with
  | zero =>
    intro i l h
    simp only [genCommentsAux, Option.some.injEq] at h
    simp [← h]
  | succ n ih =>
    intro i l h
    unfold genCommentsAux at h
    cases hc : mkComment articleIds (draws i) with
    | none => rw [hc] at h; exact absurd h (by simp)
    | some c =>
      rw [hc] at h
      cases hrest : genCommentsAux articleIds draws n (i + 1) with
      | none => rw [hrest] at h; exact absurd h (by simp)
      | some rest =>
        rw [hrest] at h
        simp only [Option.some.injEq] at h
        subst h
        simp [ih hrest]

theorem genCommentsAux_ex {articleIds : List String} (h : articleIds ≠ [])
    (draws : Nat → CommentDraw) :
    ∀ n i, ∃ l, genCommentsAux articleIds draws n i = some l ∧ l.length = n := by
  intro n
  induction n with
  | zero => intro i; exact ⟨[], rfl, rfl⟩
  | succ n ih =>
    intro i
    obtain ⟨c, hc⟩ := mkComment_isSome h (draws i)
    obtain ⟨rest, hrest, hlen⟩ := ih (i + 1)
    refine ⟨c :: rest, ?_, by simp [hlen]⟩
    show genCommentsAux articleIds draws (n + 1) i = _
    unfold genCommentsAux
    rw [hc, hrest]

theorem genCommentsAux_get {articleIds : List String} {draws : Nat → CommentDraw} :
    ∀ {n i l}, genCommentsAux articleIds draws n i = some l →
      ∀ k, k < n → l.get? k = mkComment articleIds (draws (i + k)) := by
  intro n
  induction n with
  | zero => intro i l _ k hk; omega
  | succ n ih =>
    intro i l h k hk
    unfold genCommentsAux at h
    cases hc : mkComment articleIds (draws i) with
    | none => rw [hc] at h; exact absurd h (by simp)
    | some c =>
      rw [hc] at h
      cases hrest : genCommentsAux articleIds draws n (i + 1) with
      | none => rw [hrest] at h; exact absurd h (by simp)
      | some rest =>
        rw [hrest] at h
        simp only [Option.some.injEq] at h
        subst h
        cases k with
        | zero => simpa using hc.symm
        | succ k =>
          have hik : i + 1 + k = i + (k + 1) := by omega
          rw [List.get?_cons_succ, ih hrest k (by omega), hik]

theorem genCommentsAux_mem {articleIds : List String} {draws : Nat → CommentDraw}
    {n i l} (h : genCommentsAux articleIds draws n i = some l) {c : Comment}
    (hc : c ∈ l) : ∃ j, mkComment articleIds (draws j) = some c := by
  obtain ⟨k, hk⟩ := List.mem_iff_get?.mp hc
  have hkl : k < l.length := (List.get?_eq_some.mp hk).1
  have hkn : k < n := by rw [genCommentsAux_length h] at hkl; exact hkl
  exact ⟨i + k, by rw [← genCommentsAux_get h k hkn, hk]⟩

theorem genAuthorsAux_length (draws : Nat → AuthorDraw) :
    ∀ n i issued, (genAuthorsAux draws n i issued).length = n := by
  intro n
  induction n with
  | zero => intro i issued; rfl
  | succ n ih => intro i issued; simp [genAuthorsAux, ih]

/-- The emails of a generated author list are exactly the unique-provider
values of the consumed draws, in order. -/
theorem genAuthorsAux_email_map (draws : Nat → AuthorDraw) :
    ∀ n i issued, (genAuthorsAux draws n i issued).map Author.email =
      (List.range n).map (fun k => (draws (i + k)).email) := by
  intro n
  induction n with
  | zero => intro i issued; rfl
  | succ n ih =>
    intro i issued
    rw [List.range_succ_eq_map]
    simp only [genAuthorsAux, List.map_cons, List.map_map]
    rw [ih]
    have htail : (List.range n).map (fun k => (draws (i + 1 + k)).email) =
        (List.range n).map ((fun k => (draws (i + k)).email) ∘ Nat.succ) := by
      apply List.map_congr_left
      intro a _
      simp only [Function.comp_apply]
      have hik : i + 1 + a = i + (a + 1) := by omega
      rw [hik]
    rw [htail]
    simp

/-- The retry loop returns either a candidate that was checked against the
issued set, or the unchecked fallback username. -/
theorem findUsernameAux_spec (issued : List String) (names : Nat → String)
    (fb : String) :
    ∀ fuel k, findUsernameAux issued names fb fuel k ∉ issued ∨
      findUsernameAux issued names fb fuel k = "user_" ++ fb := by
  intro fuel
  induction fuel with
  | zero => intro k; exact Or.inr rfl
  | succ fuel ih =>
    intro k
    unfold findUsernameAux
    by_cases hc : normalizeUsername (names k) ∈ issued
    · simpa [hc] using ih (k + 1)
    · simp [hc]

theorem pickUsername_spec (issued : List String) (names : Nat → String)
    (fb : String) :
    pickUsername issued names fb ∉ issued ∨
      pickUsername issued names fb = "user_" ++ fb :=
  findUsernameAux_spec issued names fb 101 0

/-- Invariant of the author loop: provided every fallback username that the
draws could issue is fresh with respect to both the accumulated issued set and
the usernames produced before it, the produced usernames avoid the issued set
and are pairwise distinct. -/
theorem genAuthorsAux_username_nodup (draws : Nat → AuthorDraw) :
    ∀ n i issued,
      (∀ k, k < n → "user_" ++ (draws (i + k)).fallbackHex ∉ issued ∧
        "user_" ++ (draws (i + k)).fallbackHex ∉
          ((genAuthorsAux draws n i issued).take k).map Author.username) →
      (∀ u ∈ (genAuthorsAux draws n i issued).map Author.username, u ∉ issued) ∧
      ((genAuthorsAux draws n i issued).map Author.username).Nodup := by
  intro n
  induction n with
  | zero => intro i issued _; exact ⟨by simp [genAuthorsAux], by simp [genAuthorsAux]⟩
  | succ n ih =>
    intro i issued hfb
    simp only [genAuthorsAux, List.map_cons] at *
    set u := pickUsername issued (draws i).names (draws i).fallbackHex with hu
    have hnotmem : u ∉ issued := by
      rcases pickUsername_spec issued (draws i).names (draws i).fallbackHex with h | h
      · exact h
      · have := (hfb 0 (by omega)).1
        simp only [Nat.add_zero] at this
        rw [← hu] at h
        rw [h]
        exact this
    have hih := ih (i + 1) (u :: issued) ?_
    · obtain ⟨hfresh, hnodup⟩ := hih
      constructor
      · intro v hv
        rcases List.mem_cons.mp hv with hv | hv
        · rw [hv]; exact hnotmem
        · intro hvis
          exact (hfresh v hv) (List.mem_cons_of_mem _ hvis)
      · rw [List.nodup_cons]
        refine ⟨?_, hnodup⟩
        intro hmem
        exact (hfresh u hmem) (List.mem_cons_self _ _)
    · intro k hk
      have hstep := hfb (k + 1) (by omega)
      have hidx : i + (k + 1) = i + 1 + k := by omega
      rw [hidx] at hstep
      obtain ⟨h1, h2⟩ := hstep
      rw [List.take_succ_cons, List.map_cons] at h2
      constructor
      · intro hmem
        rcases List.mem_cons.mp hmem with hmem | hmem
        · exact h2 (by rw [hmem]; exact List.mem_cons_self _ _)
        · exact h1 hmem
      · intro hmem
        exact h2 (List.mem_cons_of_mem _ hmem)

/-! ## Concrete runs used by the witnesses and counterexamples -/

/-- A concrete author draw: one fresh candidate username, a fixed fallback,
and fixed uuid/email/timestamp values. -/
def cAuthorDraw : AuthorDraw :=
  { names := fun _ => "alice", fallbackHex := "cafe0001",
    uuid := "aaaaaaaa-aaaa-aaaa-aaaa-aaaaaaaaaaaa",
    email := "alice@example.com", createdAt := 3 }

/-- A concrete article draw: first pool entry, topic `Technology`, first
title pattern, three identical paragraphs, a publication draw of `0`, both
date draws `0`, clock value `5`. -/
def cArticleDraw : ArticleDraw :=
  { uuid := "bbbbbbbb-bbbb-bbbb-bbbb-bbbbbbbbbbbb",
    authorE := 0, topicE := 0, patternE := 0, paraE := 0,
    paragraphs := fun _ => "para", publishQ := 0, daysE := 0, pubDaysE := 0,
    now := 5 }

/-- A concrete comment draw taking the `fake.sentence` branch, clock value
`7`. -/
def cCommentDraw : CommentDraw :=
  { uuid := "cccccccc-cccc-cccc-cccc-cccccccccccc",
    articleE := 0, name := "Bob Smith", email := "bob@example.com",
    tmplQ := 1, tmplE := 0, wordsE := 0, sentence := fun _ => "nice post",
    daysE := 0, now := 7 }

/-- The SQL text of a full 1-author/1-article/1-comment run over the draws
above (header clock `9`). -/
def cSql : Option String :=
  runPipeline (fun _ => cAuthorDraw) (fun _ => cArticleDraw) (fun _ => cCommentDraw) 9 1 1 1 1

/-- `cArticleDraw` with a different `uuid4()` outcome and every other random
value unchanged. -/
def cArticleDraw2 : ArticleDraw :=
  { cArticleDraw with uuid := "dddddddd-dddd-dddd-dddd-dddddddddddd" }

/-- The same run as `cSql` except for the article's `uuid4()` outcome. -/
def cSql2 : Option String :=
  runPipeline (fun _ => cAuthorDraw) (fun _ => cArticleDraw2) (fun _ => cCommentDraw) 9 1 1 1 1

/-- The verifier's reading of the `cSql` run. -/
def cVerify : VerifyResult :=
  extract_uuids_from_sql (cSql.getD "")

/-- Author draws on which every faker candidate collides after the first
author and both later fallbacks produce the same eight hex characters. -/
def dupAuthorDraw : Nat → AuthorDraw := fun i =>
  { names := fun _ => "taken", fallbackHex := "deadbeef",
    uuid := toString i, email := toString i, createdAt := 0 }

/-- Author draws with fresh candidate usernames, distinct fallbacks and
distinct unique-provider emails. -/
def wAuthorDraws : Nat → AuthorDraw := fun i =>
  { names := fun _ => if i = 0 then "alice" else "bob",
    fallbackHex := "fb" ++ toString i, uuid := toString i,
    email := "mail" ++ toString i, createdAt := 0 }

/-- The article produced by `cArticleDraw` over the pool `["a0"]` with
`published_ratio = 1`. -/
def cArticle : Article :=
  { id := "bbbbbbbb-bbbb-bbbb-bbbb-bbbbbbbbbbbb",
    title := "Getting Started with Technology",
    content := "para\n\npara\n\npara",
    publishDate := some 5, isPublished := true,
    authorId := "a0", createdAt := 5 }

/-- The article produced by `cArticleDraw` over the pool `["a0"]` with
`published_ratio = 0`: a draft. -/
def cArticleDraft : Article :=
  { cArticle with publishDate := none, isPublished := false }

/-- The comment produced by `cCommentDraw` over the pool `["b0"]`. -/
def cComment : Comment :=
  { id := "cccccccc-cccc-cccc-cccc-cccccccccccc", articleId := "b0",
    authorName := "Bob Smith", authorEmail := "bob@example.com",
    content := "nice post", commentDate := 7, createdAt := 7 }

/-- `cCommentDraw` with a single quote inside the faker email. -/
def cCommentDrawQ : CommentDraw :=
  { cCommentDraw with email := "o" ++ sqc ++ "brien@example.com" }

/-- The comment produced by `cCommentDrawQ` over the pool `["b0"]`: its email
carries the quote verbatim. -/
def cCommentQ : Comment :=
  { cComment with authorEmail := "o" ++ sqc ++ "brien@example.com" }

/-! ## The claims -/

/-- C1: Referential integrity by construction: for every call of the article
generator with a non-empty author-id pool, every generated article's
`author_id` is an element of that pool, and for every call of the comment
generator with a non-empty article-id pool, every generated comment's
`article_id` is an element of that pool. -/
theorem C1_referential_integrity
    (nAr nC : Nat) (authorIds articleIds : List String) (ratio : ℚ)
    (arDraws : Nat → ArticleDraw) (cDraws : Nat → CommentDraw)
    (_hA : authorIds ≠ []) (_hB : articleIds ≠ [])
    (arts : List Article) (hArts : generate_articles nAr authorIds ratio arDraws = some arts)
    (cs : List Comment) (hCs : generate_comments nC articleIds cDraws = some cs) :
    (∀ a ∈ arts, a.authorId ∈ authorIds) ∧ (∀ c ∈ cs, c.articleId ∈ articleIds) := by
  constructor
  · intro a ha
    obtain ⟨j, hj⟩ := genArticlesAux_mem hArts ha
    exact (mkArticle_spec hj).1
  · intro c hc
    obtain ⟨j, hj⟩ := genCommentsAux_mem hCs hc
    exact (mkComment_spec hj).1

theorem C1_referential_integrity_witness :
    (∀ a ∈ [cArticle], a.authorId ∈ ["a0"]) ∧
    (∀ c ∈ [cComment], c.articleId ∈ ["b0"]) :=
  C1_referential_integrity 1 1 ["a0"] ["b0"] 1
    (fun _ => cArticleDraw) (fun _ => cCommentDraw)
    (by decide) (by decide) [cArticle] (by decide) [cComment] (by decide)

/-- C5: every generated article with `is_published = true` carries a publish
date that is no later than the generation moment (the iteration's clock
reading) and no earlier than its `created_at`. -/
theorem C5_publish_date_bounds
    (count : Nat) (authorIds : List String) (ratio : ℚ)
    (draws : Nat → ArticleDraw) (arts : List Article)
    (h : generate_articles count authorIds ratio draws = some arts)
    (k : Nat) (hk : k < count) (a : Article) (ha : arts.get? k = some a)
    (hp : a.isPublished = true) :
    ∃ t, a.publishDate = some t ∧ a.createdAt ≤ t ∧ t ≤ (draws k).now := by
  have h' : genArticlesAux authorIds ratio draws count 0 = some arts := h
  have hget := genArticlesAux_get h' k hk
  rw [ha] at hget
  have hmk : mkArticle authorIds ratio (draws (0 + k)) = some a := hget.symm
  rw [Nat.zero_add] at hmk
  exact (mkArticle_spec hmk).2.2 hp

theorem C5_publish_date_bounds_witness :
    ∃ t, cArticle.publishDate = some t ∧ cArticle.createdAt ≤ t ∧ t ≤ 5 :=
  C5_publish_date_bounds 1 ["a0"] 1 (fun _ => cArticleDraw) [cArticle]
    (by decide) 0 (by decide) cArticle (by decide) (by decide)

/-- C6: every generated article with `is_published = false` has no publish
date, and its serialized tuple carries the bare SQL `NULL` keyword (no quoted
timestamp) in the `publish_date` position. -/
theorem C6_draft_null_publish
    (count : Nat) (authorIds : List String) (ratio : ℚ)
    (draws : Nat → ArticleDraw) (arts : List Article)
    (h : generate_articles count authorIds ratio draws = some arts)
    (a : Article) (ha : a ∈ arts) (hd : a.isPublished = false) :
    a.publishDate = none ∧
    articleValue a = "(" ++ sqWrap a.id ++ ", " ++ sqWrap a.title ++ ", " ++
      sqWrap a.content ++ ", " ++ "NULL" ++ ", " ++ "FALSE" ++ ", " ++
      sqWrap a.authorId ++ ", " ++ sqWrap (fmtTs a.createdAt) ++ ", " ++
      sqWrap (fmtTs a.createdAt) ++ ")" := by
  obtain ⟨j, hj⟩ := genArticlesAux_mem h ha
  have hnone := (mkArticle_spec hj).2.1 hd
  refine ⟨hnone, ?_⟩
  simp [articleValue, publishDateStr, boolStr, hnone, hd]

theorem C6_draft_null_publish_witness :
    cArticleDraft.publishDate = none ∧
    articleValue cArticleDraft = "(" ++ sqWrap cArticleDraft.id ++ ", " ++
      sqWrap cArticleDraft.title ++ ", " ++ sqWrap cArticleDraft.content ++ ", " ++
      "NULL" ++ ", " ++ "FALSE" ++ ", " ++ sqWrap cArticleDraft.authorId ++ ", " ++
      sqWrap (fmtTs cArticleDraft.createdAt) ++ ", " ++
      sqWrap (fmtTs cArticleDraft.createdAt) ++ ")" :=
  C6_draft_null_publish 1 ["a0"] 0 (fun _ => cArticleDraw) [cArticleDraft]
    (by decide) cArticleDraft (by decide) (by decide)

/-- C8: for every requested count the author generator returns exactly that
many records, and over non-empty id pools so do the article and the comment
generators. -/
theorem C8_exact_counts
    (nA nAr nC : Nat) (aDraws : Nat → AuthorDraw)
    (authorIds articleIds : List String) (ratio : ℚ)
    (arDraws : Nat → ArticleDraw) (cDraws : Nat → CommentDraw)
    (hA : authorIds ≠ []) (hB : articleIds ≠ []) :
    (generate_authors nA aDraws).length = nA ∧
    (∃ arts, generate_articles nAr authorIds ratio arDraws = some arts ∧
      arts.length = nAr) ∧
    (∃ cs, generate_comments nC articleIds cDraws = some cs ∧ cs.length = nC) :=
  ⟨genAuthorsAux_length aDraws nA 0 [],
   genArticlesAux_ex hA ratio arDraws nAr 0,
   genCommentsAux_ex hB cDraws nC 0⟩

theorem C8_exact_counts_witness :
    (generate_authors 2 wAuthorDraws).length = 2 ∧
    (∃ arts, generate_articles 2 ["a0"] 1 (fun _ => cArticleDraw) = some arts ∧
      arts.length = 2) ∧
    (∃ cs, generate_comments 2 ["b0"] (fun _ => cCommentDraw) = some cs ∧
      cs.length = 2) :=
  C8_exact_counts 2 2 2 wAuthorDraws ["a0"] ["b0"] 1
    (fun _ => cArticleDraw) (fun _ => cCommentDraw) (by decide) (by decide)

/-- C7: every invalid configuration (`authors < 1`, `articles < 1`,
`comments < 1`, or a published ratio outside `[0, 1]`) is rejected by `main`
with one of the four validation error messages before any generation step
runs, so no SQL output is produced. -/
theorem C7_validation_rejects
    (nA nAr nC : Int) (ratio : ℚ)
    (aDraws : Nat → AuthorDraw) (arDraws : Nat → ArticleDraw)
    (cDraws : Nat → CommentDraw) (sqlNow : Int)
    (h : nA < 1 ∨ nAr < 1 ∨ nC < 1 ∨ ¬ (0 ≤ ratio ∧ ratio ≤ 1)) :
    ∃ msg, mainModel nA nAr nC ratio aDraws arDraws cDraws sqlNow =
        Except.error msg ∧
      msg ∈ ["Error: --authors must be at least 1",
             "Error: --articles must be at least 1",
             "Error: --comments must be at least 1",
             "Error: --published-ratio must be between 0.0 and 1.0"] := by
  by_cases h1 : nA < 1
  · exact ⟨"Error: --authors must be at least 1", by simp [mainModel, h1], by simp⟩
  by_cases h2 : nAr < 1
  · exact ⟨"Error: --articles must be at least 1", by simp [mainModel, h1, h2], by simp⟩
  by_cases h3 : nC < 1
  · exact ⟨"Error: --comments must be at least 1", by simp [mainModel, h1, h2, h3],
      by simp⟩
  by_cases h4 : 0 ≤ ratio ∧ ratio ≤ 1
  · exact absurd h (by simp [h1, h2, h3, h4])
  · exact ⟨"Error: --published-ratio must be between 0.0 and 1.0",
      by simp [mainModel, h1, h2, h3, h4], by simp⟩

theorem C7_validation_rejects_witness :
    ∃ msg, mainModel 0 5 5 (mkRat 7 10) (fun _ => cAuthorDraw)
        (fun _ => cArticleDraw) (fun _ => cCommentDraw) 9 = Except.error msg ∧
      msg ∈ ["Error: --authors must be at least 1",
             "Error: --articles must be at least 1",
             "Error: --comments must be at least 1",
             "Error: --published-ratio must be between 0.0 and 1.0"] :=
  C7_validation_rejects 0 5 5 (mkRat 7 10) (fun _ => cAuthorDraw)
    (fun _ => cArticleDraw) (fun _ => cCommentDraw) 9 (by decide)

/-- C9: a generated comment's `author_email` is the faker email embedded
verbatim — no single-quote doubling is applied to it, while `author_name` is
escaped — so an email containing a single quote reaches the serialized
Comments tuple with its quote unescaped. -/
theorem C9_email_unescaped
    (count : Nat) (articleIds : List String) (draws : Nat → CommentDraw)
    (cs : List Comment) (h : generate_comments count articleIds draws = some cs)
    (k : Nat) (hk : k < count) (c : Comment) (hc : cs.get? k = some c) :
    c.authorEmail = (draws k).email ∧
    c.authorName = escapeSq (draws k).name ∧
    ∃ pre post, commentValue c = pre ++ sqc ++ (draws k).email ++ sqc ++ post := by
  have h' : genCommentsAux articleIds draws count 0 = some cs := h
  have hget := genCommentsAux_get h' k hk
  rw [hc] at hget
  have hmk : mkComment articleIds (draws (0 + k)) = some c := hget.symm
  rw [Nat.zero_add] at hmk
  obtain ⟨-, hemail, hname, -⟩ := mkComment_spec hmk
  refine ⟨hemail, hname,
    "(" ++ sqWrap c.id ++ ", " ++ sqWrap c.articleId ++ ", " ++
      sqWrap c.authorName ++ ", ",
    ", " ++ sqWrap c.content ++ ", " ++ sqWrap (fmtTs c.commentDate) ++ ", " ++
      sqWrap (fmtTs c.createdAt) ++ ")", ?_⟩
  rw [← hemail]
  simp [commentValue, sqWrap, String.append_assoc]

theorem C9_email_unescaped_witness :
    cCommentQ.authorEmail = cCommentDrawQ.email ∧
    cCommentQ.authorName = escapeSq cCommentDrawQ.name ∧
    ∃ pre post, commentValue cCommentQ =
      pre ++ sqc ++ cCommentDrawQ.email ++ sqc ++ post :=
  C9_email_unescaped 1 ["b0"] (fun _ => cCommentDrawQ) [cCommentQ]
    (by decide) 0 (by decide) cCommentQ (by decide)

/-- C10: the serializer is deterministic in its inputs up to the single
`-- Generated at:` header line, the one line that carries the serialization
clock reading: two calls over equal collections differ at most at index 1 of
the line list. -/
theorem C10_serializer_clock_line
    (now1 now2 : Int) (authors : List Author) (articles : List Article)
    (comments : List Comment) :
    (sqlLines now1 authors articles comments).eraseIdx 1 =
      (sqlLines now2 authors articles comments).eraseIdx 1 ∧
    (sqlLines now1 authors articles comments).get? 1 =
      some ("-- Generated at: " ++ fmtTs now1) ∧
    generate_sql now1 authors articles comments =
      String.intercalate "\n" (sqlLines now1 authors articles comments) := by
  refine ⟨?_, rfl, rfl⟩
  simp [sqlLines, List.eraseIdx]

set_option maxRecDepth 10000

/-- C2 fails on the code: the pipeline output is not a function of the seed,
the counts and the ratio alone.  `Faker.seed` only seeds the Faker streams;
the `uuid4()` values, the module-level `random` draws and the
`datetime.now()` readings are not derived from the seed.  Two runs below
agree on every input value — in particular on all Faker-derived ones — except
the article's `uuid4()` outcome, and produce different SQL texts. -/
theorem C2_seed_determinism_fails :
    cArticleDraw2.paragraphs = cArticleDraw.paragraphs ∧
    cArticleDraw2.publishQ = cArticleDraw.publishQ ∧
    cArticleDraw2.authorE = cArticleDraw.authorE ∧
    cArticleDraw2.topicE = cArticleDraw.topicE ∧
    cArticleDraw2.patternE = cArticleDraw.patternE ∧
    cArticleDraw2.paraE = cArticleDraw.paraE ∧
    cArticleDraw2.daysE = cArticleDraw.daysE ∧
    cArticleDraw2.pubDaysE = cArticleDraw.pubDaysE ∧
    cArticleDraw2.now = cArticleDraw.now ∧
    cSql ≠ cSql2 := by
  refine ⟨rfl, rfl, rfl, rfl, rfl, rfl, rfl, rfl, rfl, ?_⟩
  decide

/-- C3 fails on the code: on a generated dataset the verifier reports zero
referential violations, and it extracts (and confirms) every comment's
article reference, but it extracts no article-to-author reference at all —
every article tuple spans several physical lines because its content contains
blank-line paragraph separators, so the author id never sits in the sixth
comma field of the tuple's first line.  On the concrete run `cSql` (one
author, one article, one comment) the verifier finds the article id but zero
author references, against the claimed 100% coverage. -/
theorem C3_verifier_round_trip_gap :
    cSql.isSome = true ∧
    cVerify.success = true ∧
    cVerify.invalidArticleRefs = [] ∧
    cVerify.invalidCommentRefs = [] ∧
    cVerify.articleIds.length = 1 ∧
    cVerify.commentArticleRefs.length = 1 ∧
    cVerify.articleAuthorRefs = [] := by
  decide

/-- C4 fails as stated: the fallback username is issued without being
re-checked against the already-issued set, so it is not guaranteed unique.
On the draws below the first author receives `taken`, and both later authors
exhaust the 101-attempt retry budget and break out with the same
`user_deadbeef` fallback, leaving a duplicate username in the run. -/
theorem C4_username_collision_cex :
    ((generate_authors 3 dupAuthorDraw).map Author.username) =
      ["taken", "user_deadbeef", "user_deadbeef"] ∧
    ¬ ((generate_authors 3 dupAuthorDraw).map Author.username).Nodup := by
  decide

/-- C4, amended: within one run all usernames are pairwise distinct provided
every fallback username the draws could issue differs from the usernames
issued before it (in particular whenever the retry budget is never
exhausted), and all emails are pairwise distinct provided the faker
unique-email provider honours its contract of pairwise-distinct values. -/
theorem C4_uniqueness_amended
    (count : Nat) (draws : Nat → AuthorDraw)
    (He : ∀ i, i < count → ∀ j, j < count → i ≠ j →
      (draws i).email ≠ (draws j).email)
    (Hfb : ∀ k, k < count → "user_" ++ (draws k).fallbackHex ∉
      (((generate_authors count draws).take k).map Author.username)) :
    ((generate_authors count draws).map Author.username).Nodup ∧
    ((generate_authors count draws).map Author.email).Nodup := by
  constructor
  · have hmain := genAuthorsAux_username_nodup draws count 0 []
    have harg : ∀ k, k < count →
        "user_" ++ (draws (0 + k)).fallbackHex ∉ ([] : List String) ∧
        "user_" ++ (draws (0 + k)).fallbackHex ∉
          ((genAuthorsAux draws count 0 []).take k).map Author.username := by
      intro k hk
      refine ⟨by simp, ?_⟩
      simp only [Nat.zero_add]
      exact Hfb k hk
    exact (hmain harg).2
  · have hmap : (generate_authors count draws).map Author.email =
        (List.range count).map (fun k => (draws (0 + k)).email) :=
      genAuthorsAux_email_map draws count 0 []
    rw [hmap]
    simp only [Nat.zero_add]
    apply List.Nodup.map_on
    · intro x hx y hy hxy
      by_contra hne
      exact He x (List.mem_range.mp hx) y (List.mem_range.mp hy) hne hxy
    · exact List.nodup_range count

theorem C4_uniqueness_amended_witness :
    ((generate_authors 2 wAuthorDraws).map Author.username).Nodup ∧
    ((generate_authors 2 wAuthorDraws).map Author.email).Nodup :=
  C4_uniqueness_amended 2 wAuthorDraws (by decide) (by decide)
